import Mathlib

/-!
# eshail-wb-fft-airspy: a shallow embedding of `main.c`

The development follows the three shared buffers of the program:

* `rf_buffer`  : filled by `airspy_rx`, drained by `thread_fft`;
* `fft_buffer` : the smoothed spectrum, written by `thread_fft`, read by `fft_to_string`;
* `websocket_output` : the published frame, written by `fft_to_string`, read by the
  `LWS_CALLBACK_SERVER_WRITEABLE` branch of `callback_fft`.

Machine integers are naturals or integers with explicit reductions modulo `2^16` and `2^32`.
A mutex-protected critical section is one atomic state transformer.  Values that the program
only moves around (the 32-bit floats of a transfer) are elements of a type parameter, and the
results of library calls (`lws_write`) and of floating-point conversions that C leaves to the
platform are function parameters.
-/

namespace Eshail

/-! ## Constants of `main.c` -/

/-- Transform size, `#define FFT_SIZE 1024`. -/
def FFT_SIZE : Nat := 1024

/-- Bytes per 32-bit float, `#define FLOAT32_EL_SIZE_BYTE (4)`. -/
def FLOAT32_EL_SIZE_BYTE : Nat := 4

/-- Number of floats in `rf_buffer.data`, declared `char data[65536 * FLOAT32_EL_SIZE_BYTE]`. -/
def RF_DATA_FLOATS : Nat := 65536 * FLOAT32_EL_SIZE_BYTE / FLOAT32_EL_SIZE_BYTE

/-- Noise-floor target, `#define FLOOR_TARGET 9300`. -/
def FLOOR_TARGET : Nat := 9300

/-- Noise-floor smoothing factor, `#define FLOOR_TIME_SMOOTH 0.995`, read as a decimal. -/
def FLOOR_TIME_SMOOTH : ℚ := 0.995

/-- Size of the payload area of the output buffer, `#define WEBSOCKET_OUTPUT_LENGTH 4096`. -/
def WEBSOCKET_OUTPUT_LENGTH : Nat := 4096

/-- Conversion of a C `int` value to `uint32_t`. -/
def to_uint32 (z : Int) : Nat := (z % 4294967296).toNat

/-- Conversion of a C `int` value to `uint16_t`. -/
def to_uint16 (z : Int) : Nat := (z % 65536).toNat

/-- Conversion of a `uint32_t` value to a C `int` (two's complement). -/
def to_int32 (u : Nat) : Int :=
  if u % 4294967296 < 2147483648 then ((u % 4294967296 : Nat) : Int)
  else ((u % 4294967296 : Nat) : Int) - 4294967296

/-! ## The sample hand-off: `rf_buffer`, `airspy_rx`, and the copy loop of `thread_fft` -/

/-- The fields of `airspy_transfer_t` that `airspy_rx` reads.  `samples` is `none` for a null
pointer, else the function from float index to the float stored there; `sample_count` is a
C `int`. -/
structure airspy_transfer_t (α : Type) where
  samples : Option (Nat → α)
  sample_count : Int
  sample_count_int : -2147483648 ≤ sample_count ∧ sample_count < 2147483648

/-- The data fields of `rf_buffer_t`; `data` is read at float granularity and only indices
below `RF_DATA_FLOATS` exist in the C object. -/
structure rf_buffer_t (α : Type) where
  index : Nat
  size : Nat
  data : Nat → α

/-- Outcome of one `airspy_rx` call: the buffer, whether `pthread_cond_signal` was issued, and
the returned value. -/
structure airspy_rx_result (α : Type) where
  rf_buffer : rf_buffer_t α
  signalled : Bool
  ret : Int

/-- The `memcpy` of `65536 * FLOAT32_EL_SIZE_BYTE` bytes into `rf_buffer.data`. -/
def memcpy_rf {α : Type} (dst src : Nat → α) : Nat → α :=
  fun k => if k < 65536 * FLOAT32_EL_SIZE_BYTE / FLOAT32_EL_SIZE_BYTE then src k else dst k

/-- The callback `airspy_rx` (lines 179-197). -/
def airspy_rx {α : Type} (rf : rf_buffer_t α) (transfer : airspy_transfer_t α) :
    airspy_rx_result α :=
  match transfer.samples with
  | some samples =>
    if transfer.sample_count ≥ 65536 then
      { rf_buffer :=
          { index := 0
            data := memcpy_rf rf.data samples
            size := to_uint32 (Int.tdiv transfer.sample_count ((FFT_SIZE : Int) * 2)) }
        signalled := true
        ret := 0 }
    else { rf_buffer := rf, signalled := false, ret := 0 }
  | none => { rf_buffer := rf, signalled := false, ret := 0 }

/-- A transfer that passes the guard of `airspy_rx`. -/
def transfer_accepted {α : Type} (transfer : airspy_transfer_t α) : Prop :=
  transfer.samples ≠ none ∧ transfer.sample_count ≥ 65536

/-- Read of `((float*)rf_buffer.data)[k]`: defined only inside the array. -/
def rf_read {α : Type} (rf : rf_buffer_t α) (k : Int) : Option α :=
  if 0 ≤ k ∧ k < (RF_DATA_FLOATS : Int) then some (rf.data k.toNat) else none

/-- The value of `offset = rf_buffer.index * FFT_SIZE * 2` in `thread_fft` (an unsigned
product stored in an `int`). -/
def thread_fft_offset {α : Type} (rf : rf_buffer_t α) : Int :=
  to_int32 (rf.index * FFT_SIZE * 2)

/-- The copy loop of `thread_fft` (lines 232-236), `n` iterations starting at `i`.  `mul` is
the floating-point product with the window coefficient.  The result is `none` as soon as a
read falls outside `rf_buffer.data`. -/
def thread_fft_copy_loop {α ω γ : Type} (mul : α → ω → γ) (hanning_window_const : Nat → ω)
    (rf : rf_buffer_t α) (offset : Int) : Nat → Nat → List (γ × γ) → Option (List (γ × γ))
  | 0, _, fft_in => some fft_in
  | n + 1, i, fft_in =>
    match rf_read rf (offset + 2 * (i : Int)), rf_read rf (offset + 2 * (i : Int) + 1) with
    | some re, some im =>
      thread_fft_copy_loop mul hanning_window_const rf offset n (i + 1)
        (fft_in ++ [(mul re (hanning_window_const i), mul im (hanning_window_const i))])
    | _, _ => none

/-- One pass of `thread_fft` over the input buffer (lines 229-238), taken after the wait:
the windowed subframe `fft_in` and the buffer with `index` advanced. -/
def thread_fft_take {α ω γ : Type} (mul : α → ω → γ) (hanning_window_const : Nat → ω)
    (rf : rf_buffer_t α) : Option (List (γ × γ) × rf_buffer_t α) :=
  match thread_fft_copy_loop mul hanning_window_const rf (thread_fft_offset rf) FFT_SIZE 0 [] with
  | some fft_in => some (fft_in, { rf with index := (rf.index + 1) % 4294967296 })
  | none => none

/-! ## The post-transform loop of `thread_fft` -/

/-- Index of the transform output that the loop body reads for spectrum slot `i`
(lines 252-261). -/
def fft_out_index (i : Nat) : Nat :=
  if i < FFT_SIZE / 2 then FFT_SIZE / 2 + i else i - FFT_SIZE / 2

/-- The post-transform loop of `thread_fft` (lines 249-266), `n` iterations starting at `i`.
`upd pt old` is the floating-point body applied to the selected transform output `pt` and the
previous content of the slot: normalisation, power, `log10`, one-pole smoothing. -/
def thread_fft_post_loop {γ β : Type} (upd : γ → β → β) (fft_out : Nat → γ) :
    Nat → Nat → (Nat → β) → (Nat → β)
  | 0, _, data => data
  | n + 1, i, data =>
    thread_fft_post_loop upd fft_out n (i + 1)
      (Function.update data i (upd (fft_out (fft_out_index i)) (data i)))

/-- The whole loop `for (i = 0; i < FFT_SIZE; i++)` on `fft_buffer.data`. -/
def thread_fft_post {γ β : Type} (upd : γ → β → β) (fft_out : Nat → γ) (data : Nat → β) :
    Nat → β :=
  thread_fft_post_loop upd fft_out FFT_SIZE 0 data

/-! ## The published frame: `websocket_output`, `lowest_smooth`, `fft_to_string` -/

/-- The data fields of `websocket_output_t`.  `buffer` lists the bytes from
`&websocket_output.buffer[LWS_PRE]` on, the only part of the array that `main.c` touches. -/
structure websocket_output_t where
  buffer : List Nat
  length : Nat
  sequence_id : Nat

/-- The globals that `fft_to_string` writes. -/
structure output_state where
  websocket_output : websocket_output_t
  lowest_smooth : Nat

/-- The initialisers of `websocket_output` (lines 282-286) and `lowest_smooth` (line 291). -/
def output_state_init : output_state :=
  { websocket_output :=
      { buffer := List.replicate WEBSOCKET_OUTPUT_LENGTH 0, length := 0, sequence_id := 0 }
    lowest_smooth := 11118 }

/-- First value of `j` in the crop loop: `j = (FFT_SIZE*0.1)`, a `double` truncated to
`int32_t`. -/
def crop_first : Nat := (⌊(FFT_SIZE : ℚ) * 0.1⌋).toNat

/-- The loop test `j < (FFT_SIZE*0.9)` of the crop loop, a comparison in `double`. -/
def crop_test (j : Nat) : Bool := decide ((j : ℚ) < (FFT_SIZE : ℚ) * 0.9)

/-- The value stored for bin `j` (line 310).  `scaled j` is the result of the conversion
`(uint16_t)(3000*(fft_buffer.data[j] - 33999))`; the calibration table
`fft_line_compensation` is declared outside `main.c` and is taken as an integer table. -/
def crop_value (scaled : Nat → Nat) (fft_line_compensation : Nat → Int) (j : Nat) : Nat :=
  to_uint16 (((scaled j % 65536 : Nat) : Int) + fft_line_compensation j + 5000)

/-- The crop loop (lines 307-312) from position `j` with the values appended so far; `fuel`
bounds the number of iterations. -/
def crop_loop (scaled : Nat → Nat) (fft_line_compensation : Nat → Int) :
    Nat → Nat → List Nat → List Nat
  | 0, _, ptr => ptr
  | fuel + 1, j, ptr =>
    if crop_test j then
      crop_loop scaled fft_line_compensation fuel (j + 1)
        (ptr ++ [crop_value scaled fft_line_compensation j])
    else ptr

/-- The cropped buffer after the first loop; its length is the final value of `i`. -/
def crop (scaled : Nat → Nat) (fft_line_compensation : Nat → Int) : List Nat :=
  crop_loop scaled fft_line_compensation FFT_SIZE crop_first []

/-- The minimum search of lines 318-325. -/
def find_lowest (ptr : List Nat) : Nat :=
  ptr.foldl (fun lowest v => if v < lowest then v else lowest) 0xFFFF

/-- The update of line 326, `(lowest * (1.f - FLOOR_TIME_SMOOTH)) + (lowest_smooth *
FLOOR_TIME_SMOOTH)` stored in a `uint16_t`: the products and the sum are evaluated exactly
over the rationals, the conversion truncates. -/
def smooth_floor (lowest lowest_smooth : Nat) : Nat :=
  (⌊(lowest : ℚ) * (1 - FLOOR_TIME_SMOOTH) + (lowest_smooth : ℚ) * FLOOR_TIME_SMOOTH⌋).toNat
    % 65536

/-- The value of `offset = FLOOR_TARGET - lowest_smooth` as a `uint16_t` (line 329). -/
def floor_offset (lowest_smooth : Nat) : Nat :=
  to_uint16 ((FLOOR_TARGET : Int) - (lowest_smooth : Int))

/-- The compensation loop of lines 331-334, `ptr[j] += offset` in `uint16_t`. -/
def add_offset (offset : Nat) (ptr : List Nat) : List Nat :=
  ptr.map (fun v => (v + offset) % 65536)

/-- The noise-floor steps of `fft_to_string` (lines 317-334) on a cropped buffer: the leveled
buffer and the new `lowest_smooth`. -/
def noise_floor (ptr : List Nat) (lowest_smooth : Nat) : List Nat × Nat :=
  let lowest := find_lowest ptr
  let lowest_smooth := smooth_floor lowest lowest_smooth
  let offset := floor_offset lowest_smooth
  (add_offset offset ptr, lowest_smooth)

/-- The two bytes of a `uint16_t` in memory order on a little-endian host. -/
def le_bytes (v : Nat) : List Nat := [v % 256, v / 256 % 256]

/-- The bytes of a sequence of `uint16_t` stored through `websocket_output_buffer_ptr`. -/
def store_u16 : List Nat → List Nat
  | [] => []
  | v :: vs => le_bytes v ++ store_u16 vs

/-- One output tick, `fft_to_string` (lines 293-340). -/
def fft_to_string (scaled : Nat → Nat) (fft_line_compensation : Nat → Int)
    (st : output_state) : output_state :=
  let ptr := crop scaled fft_line_compensation
  let i := ptr.length
  let leveled := noise_floor ptr st.lowest_smooth
  { websocket_output :=
      { buffer := store_u16 leveled.1 ++ st.websocket_output.buffer.drop (2 * i)
        length := 2 * i % 4294967296
        sequence_id := (st.websocket_output.sequence_id + 1) % 4294967296 }
    lowest_smooth := leveled.2 }

/-- The state after `n` output ticks from the initial globals; `scaled t` is the converted
spectrum seen by tick `t`. -/
def run_ticks (scaled : Nat → Nat → Nat) (fft_line_compensation : Nat → Int) :
    Nat → output_state
  | 0 => output_state_init
  | n + 1 => fft_to_string (scaled n) fft_line_compensation
      (run_ticks scaled fft_line_compensation n)

/-! ## The protocol callback `callback_fft` -/

/-- The per-connection record `websocket_user_session_t`; pointers are addresses, a null
pointer is `none`. -/
structure websocket_user_session_t where
  wsi : Nat
  websocket_user_session_list : Option Nat
  last_sequence_id : Nat

/-- The field of `websocket_vhost_session_t` used by the connection branches: the head of the
list of live sessions. -/
structure websocket_vhost_session_t where
  websocket_user_session_list : Option Nat

/-- Memory seen by `callback_fft`: the per-session records by address and the vhost record. -/
structure server_state where
  sessions : Nat → websocket_user_session_t
  vhost_session : websocket_vhost_session_t

/-- Modelled from the spec: the libwebsockets list macro `lws_ll_fwd_insert(new, link, head)`
is not defined in `main.c`.  The connect step adds the subscriber to the active set; as the
name of the macro says, it is a forward insertion: the link of the new record takes the old
head (`new->link = head`) and the head becomes the new record (`head = new`). -/
def lws_ll_fwd_insert (user : Nat) (st : server_state) : server_state :=
  { sessions := Function.update st.sessions user
      { st.sessions user with
        websocket_user_session_list := st.vhost_session.websocket_user_session_list }
    vhost_session := { websocket_user_session_list := some user } }

/-- The branch `case LWS_CALLBACK_ESTABLISHED` (lines 378-387) for the connection `wsi` whose
per-session record lives at address `user`: the list insertion, then
`user_session->wsi = wsi`.  The second component is the value returned by `callback_fft`. -/
def callback_fft_ESTABLISHED (wsi user : Nat) (st : server_state) : server_state × Int :=
  let st := lws_ll_fwd_insert user st
  ({ st with sessions := Function.update st.sessions user { st.sessions user with wsi := wsi } },
    0)

/-- The addresses reached from `head` along `websocket_user_session_list`, at most `fuel`
of them. -/
def active_list (sessions : Nat → websocket_user_session_t) : Nat → Option Nat → List Nat
  | 0, _ => []
  | _, none => []
  | fuel + 1, some p => p :: active_list sessions fuel (sessions p).websocket_user_session_list

/-- Outcome of the writable branch: the session record, the payload handed to `lws_write`
if the call was made, and the value returned by `callback_fft`. -/
structure writeable_result where
  user_session : websocket_user_session_t
  sent : Option (List Nat)
  ret : Int

/-- The branch `case LWS_CALLBACK_SERVER_WRITEABLE` (lines 400-416) for the connection `wsi`.
`lws_write wsi payload` is the value the library call returns for the bytes `payload`, which
are the `websocket_output.length` bytes at `&websocket_output.buffer[LWS_PRE]`. -/
def callback_fft_SERVER_WRITEABLE (lws_write : Nat → List Nat → Int) (wsi : Nat)
    (websocket_output : websocket_output_t) (user_session : websocket_user_session_t) :
    writeable_result :=
  if websocket_output.length ≠ 0 ∧
      user_session.last_sequence_id ≠ websocket_output.sequence_id then
    let payload := websocket_output.buffer.take websocket_output.length
    let n := lws_write wsi payload
    if n = 0 then
      { user_session := user_session, sent := some payload, ret := -1 }
    else
      { user_session := { user_session with last_sequence_id := websocket_output.sequence_id }
        sent := some payload
        ret := 0 }
  else
    { user_session := user_session, sent := none, ret := 0 }

/-! ## Specification-side definitions and concrete inputs -/

/-- The slot that the specification assigns to transform output bin `i`:
`(i + N/2) mod N`. -/
def spec_slot (i : Nat) : Nat := (i + FFT_SIZE / 2) % FFT_SIZE

/-- The value `m` is the minimum of the buffer `ptr`. -/
def is_minimum (m : Nat) (ptr : List Nat) : Prop := m ∈ ptr ∧ ∀ v ∈ ptr, m ≤ v

instance (m : Nat) (ptr : List Nat) : Decidable (is_minimum m ptr) := by
  unfold is_minimum
  infer_instance

/-- A transfer of `n` samples whose float `k` holds the number `k + c`. -/
def ramp_transfer (c : Nat) (n : Int) (h : -2147483648 ≤ n ∧ n < 2147483648) :
    airspy_transfer_t Nat :=
  { samples := some (fun k => k + c), sample_count := n, sample_count_int := h }

/-- A transfer with a null `samples` pointer. -/
def null_transfer : airspy_transfer_t Nat :=
  { samples := none, sample_count := 65536, sample_count_int := by decide }

/-- The initial `rf_buffer` (lines 170-176), each float shown as its 32-bit pattern:
`.data = { 0xFF }` sets the first byte and zeroes the rest. -/
def rf_buffer_init : rf_buffer_t Nat :=
  { index := 0, size := 0, data := fun k => if k = 0 then 255 else 0 }

/-- A server memory in which every per-session record holds `last` in `last_sequence_id`, with
an empty list of live sessions. -/
def server_state_filled (last : Nat) : server_state :=
  { sessions := fun _ =>
      { wsi := 0, websocket_user_session_list := none, last_sequence_id := last }
    vhost_session := { websocket_user_session_list := none } }

/-- A converted spectrum that is 0 in every bin except bin 500, where it is 60000. -/
def spike_spectrum (j : Nat) : Nat := if j = 500 then 60000 else 0

/-! ## `airspy_rx` -/

theorem to_uint32_of_range (z : Int) (h0 : 0 ≤ z) (h1 : z < 4294967296) :
    to_uint32 z = z.toNat := by
  unfold to_uint32
  rw [Int.emod_eq_of_lt h0 h1]

theorem airspy_rx_accept {α : Type} (rf : rf_buffer_t α) (t : airspy_transfer_t α)
    (samples : Nat → α) (hs : t.samples = some samples) (hc : t.sample_count ≥ 65536) :
    airspy_rx rf t =
      { rf_buffer :=
          { index := 0
            data := memcpy_rf rf.data samples
            size := to_uint32 (Int.tdiv t.sample_count ((FFT_SIZE : Int) * 2)) }
        signalled := true
        ret := 0 } := by
  unfold airspy_rx
  rw [hs]
  simp only [hc, if_true]

theorem memcpy_rf_twice {α : Type} (d s1 s2 : Nat → α) :
    memcpy_rf (memcpy_rf d s1) s2 = memcpy_rf d s2 := by
  funext k
  unfold memcpy_rf
  split <;> rfl

theorem submitted_size (z : Int) (h0 : 65536 ≤ z) (h1 : z < 2147483648) :
    to_uint32 (Int.tdiv z ((FFT_SIZE : Int) * 2)) = (z / 2048).toNat := by
  have hz : Int.tdiv z ((FFT_SIZE : Int) * 2) = z / 2048 := by
    rw [Int.tdiv_eq_ediv (by omega) (by decide)]
    rfl
  rw [hz]
  apply to_uint32_of_range <;> omega

theorem rf_read_in {α : Type} (rf : rf_buffer_t α) (k : Int) (h0 : 0 ≤ k) (h1 : k < 65536) :
    rf_read rf k = some (rf.data k.toNat) := by
  unfold rf_read
  have h : 0 ≤ k ∧ k < (RF_DATA_FLOATS : Int) := ⟨h0, by simpa [RF_DATA_FLOATS] using h1⟩
  rw [if_pos h]

theorem thread_fft_copy_loop_in_bounds {α ω γ : Type} (mul : α → ω → γ) (hann : Nat → ω)
    (rf : rf_buffer_t α) (offset : Int) (h0 : 0 ≤ offset) :
    ∀ (n i : Nat) (acc : List (γ × γ)), offset + 2 * ((i : Int) + n) ≤ 65536 →
      ∃ l, thread_fft_copy_loop mul hann rf offset n i acc = some l ∧
        l.length = acc.length + n := by
  intro n
  induction n with
  | zero =>
    intro i acc _
    exact ⟨acc, rfl, rfl⟩
  | succ n ih =>
    intro i acc h
    have hr : rf_read rf (offset + 2 * (i : Int)) =
        some (rf.data (offset + 2 * (i : Int)).toNat) :=
      rf_read_in rf _ (by omega) (by omega)
    have hi : rf_read rf (offset + 2 * (i : Int) + 1) =
        some (rf.data (offset + 2 * (i : Int) + 1).toNat) :=
      rf_read_in rf _ (by omega) (by omega)
    obtain ⟨l, hl, hlen⟩ := ih (i + 1)
      (acc ++ [(mul (rf.data (offset + 2 * (i : Int)).toNat) (hann i),
        mul (rf.data (offset + 2 * (i : Int) + 1).toNat) (hann i))])
      (by push_cast; omega)
    refine ⟨l, ?_, ?_⟩
    · rw [thread_fft_copy_loop, hr, hi]
      exact hl
    · rw [hlen, List.length_append, List.length_singleton]
      omega

theorem thread_fft_offset_small {α : Type} (rf : rf_buffer_t α) (h : rf.index < 1048576) :
    thread_fft_offset rf = ((rf.index * 2048 : Nat) : Int) := by
  unfold thread_fft_offset to_int32 FFT_SIZE
  have h1 : rf.index * 1024 * 2 % 4294967296 = rf.index * 2048 := by omega
  rw [h1, if_pos (by omega)]

/-- Every subframe that lies inside the 65536 floats is taken without leaving the array. -/
theorem thread_fft_take_in_bounds {α ω γ : Type} (mul : α → ω → γ) (hann : Nat → ω)
    (rf : rf_buffer_t α) (h : (rf.index + 1) * (2 * FFT_SIZE) ≤ 65536) :
    (thread_fft_take mul hann rf).isSome = true := by
  unfold FFT_SIZE at h
  have hoff := thread_fft_offset_small rf (by omega)
  obtain ⟨l, hl, _⟩ := thread_fft_copy_loop_in_bounds mul hann rf (thread_fft_offset rf)
    (by rw [hoff]; omega) FFT_SIZE 0 []
    (by rw [hoff]; unfold FFT_SIZE; push_cast; omega)
  unfold thread_fft_take
  rw [hl]
  rfl

/-- The first read of a subframe that starts at or after float 65536 leaves the array. -/
theorem thread_fft_take_out_of_bounds {α ω γ : Type} (mul : α → ω → γ) (hann : Nat → ω)
    (rf : rf_buffer_t α) (h0 : 65536 ≤ rf.index * (2 * FFT_SIZE)) (h1 : rf.index < 1048576) :
    thread_fft_take mul hann rf = none := by
  unfold FFT_SIZE at h0
  have hoff := thread_fft_offset_small rf h1
  have hr : rf_read rf (thread_fft_offset rf + 2 * ((0 : Nat) : Int)) = none := by
    unfold rf_read RF_DATA_FLOATS FLOAT32_EL_SIZE_BYTE
    rw [hoff, if_neg]
    push_cast
    omega
  unfold thread_fft_take
  have hl : thread_fft_copy_loop mul hann rf (thread_fft_offset rf) FFT_SIZE 0 [] = none := by
    unfold FFT_SIZE
    rw [thread_fft_copy_loop, hr]
  rw [hl]

/-- With the nominal `sample_count` of 65536 the buffer holds 32 subframes and each of them is
read inside the array. -/
theorem airspy_rx_nominal_in_bounds {α ω γ : Type} (mul : α → ω → γ) (hann : Nat → ω)
    (rf : rf_buffer_t α) (t : airspy_transfer_t α) (hs : t.samples ≠ none)
    (hc : t.sample_count = 65536) (k : Nat) (hk : k < (airspy_rx rf t).rf_buffer.size) :
    (airspy_rx rf t).rf_buffer.size = 32 ∧
      (thread_fft_take mul hann { (airspy_rx rf t).rf_buffer with index := k }).isSome = true := by
  obtain ⟨samples, hsome⟩ := Option.ne_none_iff_exists'.mp hs
  have hacc := airspy_rx_accept rf t samples hsome (by omega)
  have hsize : (airspy_rx rf t).rf_buffer.size = 32 := by
    rw [hacc]
    show to_uint32 (Int.tdiv t.sample_count ((FFT_SIZE : Int) * 2)) = 32
    rw [submitted_size _ (by omega) (by omega), hc]
    rfl
  refine ⟨hsize, ?_⟩
  apply thread_fft_take_in_bounds
  show (k + 1) * (2 * FFT_SIZE) ≤ 65536
  unfold FFT_SIZE
  omega

/-- C5: for every channel state and every two accepted transfers `b1`, `b2`, running
`airspy_rx` on `b1` and then on `b2` leaves the same `rf_buffer` as running it on `b2` alone:
`index` is 0, `size` is `floor(b2.sample_count / (2 * FFT_SIZE))`, and the 65536 floats of
`data` are the first 65536 floats of `b2`. -/
theorem airspy_rx_overwrites {α : Type} (s : rf_buffer_t α) (b1 b2 : airspy_transfer_t α)
    (h1 : transfer_accepted b1) (h2 : transfer_accepted b2) :
    (airspy_rx (airspy_rx s b1).rf_buffer b2).rf_buffer = (airspy_rx s b2).rf_buffer ∧
    (airspy_rx (airspy_rx s b1).rf_buffer b2).rf_buffer.index = 0 ∧
    ((airspy_rx (airspy_rx s b1).rf_buffer b2).rf_buffer.size : Int) =
      b2.sample_count / (2 * (FFT_SIZE : Int)) ∧
    ∀ samples, b2.samples = some samples → ∀ k, k < 65536 →
      (airspy_rx (airspy_rx s b1).rf_buffer b2).rf_buffer.data k = samples k := by
  obtain ⟨s1, hs1⟩ := Option.ne_none_iff_exists'.mp h1.1
  obtain ⟨s2, hs2⟩ := Option.ne_none_iff_exists'.mp h2.1
  have hc2 : b2.sample_count ≥ 65536 := h2.2
  rw [airspy_rx_accept s b1 s1 hs1 h1.2, airspy_rx_accept _ b2 s2 hs2 hc2,
    airspy_rx_accept s b2 s2 hs2 hc2]
  refine ⟨?_, rfl, ?_, ?_⟩
  · simp only [memcpy_rf_twice]
  · show ((to_uint32 (Int.tdiv b2.sample_count ((FFT_SIZE : Int) * 2)) : Nat) : Int) = _
    rw [submitted_size _ hc2 b2.sample_count_int.2]
    unfold FFT_SIZE
    rw [Int.toNat_of_nonneg (by omega)]
    rfl
  · intro samples hsamples k hk
    rw [hs2] at hsamples
    cases hsamples
    show memcpy_rf (memcpy_rf s.data s1) s2 k = s2 k
    unfold memcpy_rf FLOAT32_EL_SIZE_BYTE
    rw [if_pos (by omega)]

/-- Witness for C5: a transfer of 65536 samples followed by one of 131072 samples. -/
theorem airspy_rx_overwrites_witness :
    transfer_accepted (ramp_transfer 7 65536 (by decide)) ∧
    transfer_accepted (ramp_transfer 9 131072 (by decide)) ∧
    (airspy_rx (airspy_rx rf_buffer_init (ramp_transfer 7 65536 (by decide))).rf_buffer
        (ramp_transfer 9 131072 (by decide))).rf_buffer =
      (airspy_rx rf_buffer_init (ramp_transfer 9 131072 (by decide))).rf_buffer :=
  ⟨⟨by simp [ramp_transfer], by decide⟩, ⟨by simp [ramp_transfer], by decide⟩,
    (airspy_rx_overwrites rf_buffer_init (ramp_transfer 7 65536 (by decide))
      (ramp_transfer 9 131072 (by decide)) ⟨by simp [ramp_transfer], by decide⟩
      ⟨by simp [ramp_transfer], by decide⟩).1⟩

/-- C6: for every transfer whose `samples` pointer is null or whose `sample_count` is below
65536, `airspy_rx` leaves `rf_buffer` (index, size, data) as it was, issues no wake-up and
returns 0. -/
theorem airspy_rx_discards {α : Type} (s : rf_buffer_t α) (b : airspy_transfer_t α)
    (h : b.samples = none ∨ b.sample_count < 65536) :
    (airspy_rx s b).rf_buffer = s ∧ (airspy_rx s b).signalled = false ∧
      (airspy_rx s b).ret = 0 := by
  unfold airspy_rx
  cases hs : b.samples with
  | none => exact ⟨rfl, rfl, rfl⟩
  | some samples =>
    have hc : ¬ b.sample_count ≥ 65536 := by
      rcases h with h | h
      · rw [hs] at h
        cases h
      · omega
    dsimp only
    rw [if_neg hc]
    exact ⟨rfl, rfl, rfl⟩

/-- Witness for C6: a transfer of 65535 samples and a transfer with a null pointer are
discarded. -/
theorem airspy_rx_discards_witness :
    (((ramp_transfer 0 65535 (by decide)).samples = none ∨
        (ramp_transfer 0 65535 (by decide)).sample_count < 65536) ∧
      (airspy_rx rf_buffer_init (ramp_transfer 0 65535 (by decide))).rf_buffer
        = rf_buffer_init ∧
      (airspy_rx rf_buffer_init (ramp_transfer 0 65535 (by decide))).signalled = false ∧
      (airspy_rx rf_buffer_init (ramp_transfer 0 65535 (by decide))).ret = 0) ∧
    ((null_transfer.samples = none ∨ null_transfer.sample_count < 65536) ∧
      (airspy_rx rf_buffer_init null_transfer).rf_buffer = rf_buffer_init ∧
      (airspy_rx rf_buffer_init null_transfer).signalled = false ∧
      (airspy_rx rf_buffer_init null_transfer).ret = 0) :=
  ⟨⟨Or.inr (by decide),
      airspy_rx_discards rf_buffer_init (ramp_transfer 0 65535 (by decide))
        (Or.inr (by decide))⟩,
    ⟨Or.inl rfl, airspy_rx_discards rf_buffer_init null_transfer (Or.inl rfl)⟩⟩

/-- C10 fails on the code: a transfer of 131072 samples is accepted, `rf_buffer.size` becomes
64 although only 65536 floats were copied, so `size * 2 * FFT_SIZE` exceeds 65536, and the
pass of `thread_fft` for subframe 32 (below `size`) reads outside `rf_buffer.data`. -/
theorem airspy_rx_size_exceeds_copy :
    transfer_accepted (ramp_transfer 0 131072 (by decide)) ∧
    (airspy_rx rf_buffer_init (ramp_transfer 0 131072 (by decide))).rf_buffer.size = 64 ∧
    ¬ ((airspy_rx rf_buffer_init (ramp_transfer 0 131072 (by decide))).rf_buffer.size
        * 2 * FFT_SIZE ≤ 65536) ∧
    thread_fft_take (fun a w => a * w) (fun _ => 1)
      { (airspy_rx rf_buffer_init (ramp_transfer 0 131072 (by decide))).rf_buffer with
        index := 32 } = none := by
  have hsize : (airspy_rx rf_buffer_init (ramp_transfer 0 131072 (by decide))).rf_buffer.size
      = 64 := by decide
  refine ⟨⟨by simp [ramp_transfer], by decide⟩, hsize, ?_, ?_⟩
  · rw [hsize]
    decide
  · apply thread_fft_take_out_of_bounds
    · show 65536 ≤ 32 * (2 * FFT_SIZE)
      decide
    · show 32 < 1048576
      decide

/-! ## The centering rotation of `thread_fft` -/

theorem thread_fft_post_loop_apply {γ β : Type} (upd : γ → β → β) (fft_out : Nat → γ) :
    ∀ (n i : Nat) (data : Nat → β) (k : Nat),
      thread_fft_post_loop upd fft_out n i data k =
        if i ≤ k ∧ k < i + n then upd (fft_out (fft_out_index k)) (data k) else data k := by
  intro n
  induction n with
  | zero =>
    intro i data k
    rw [thread_fft_post_loop, if_neg (by omega)]
  | succ n ih =>
    intro i data k
    rw [thread_fft_post_loop, ih]
    by_cases hk : k = i
    · subst hk
      rw [if_neg (by omega), if_pos (by omega), Function.update_same]
    · rw [Function.update_noteq hk]
      by_cases h : i + 1 ≤ k ∧ k < i + 1 + n
      · rw [if_pos h, if_pos (by omega)]
      · rw [if_neg h, if_neg (by omega)]

theorem thread_fft_post_apply {γ β : Type} (upd : γ → β → β) (fft_out : Nat → γ)
    (data : Nat → β) (k : Nat) (hk : k < FFT_SIZE) :
    thread_fft_post upd fft_out data k = upd (fft_out (fft_out_index k)) (data k) := by
  unfold thread_fft_post
  rw [thread_fft_post_loop_apply, if_pos (by omega)]

theorem fft_out_index_eq_iff (i s : Nat) (hi : i < FFT_SIZE) (hs : s < FFT_SIZE) :
    fft_out_index s = i ↔ s = spec_slot i := by
  unfold fft_out_index spec_slot FFT_SIZE at *
  split <;> omega

/-- C9: in the post-transform loop of `thread_fft` with `N = FFT_SIZE = 1024`, for every
transform output index `i < N` the value `fft_out[i]` is the one used to update spectrum slot
`(i + N/2) mod N` and no other slot; the assignment of slots to output bins swaps the two
halves and is a bijection on `0..N-1`; output bin 0 is used for slot `N/2 = 512`. -/
theorem thread_fft_centering {γ β : Type} (upd : γ → β → β) (fft_out : Nat → γ)
    (data : Nat → β) (i : Nat) (hi : i < FFT_SIZE) :
    spec_slot i < FFT_SIZE ∧
    thread_fft_post upd fft_out data (spec_slot i) = upd (fft_out i) (data (spec_slot i)) ∧
    (∀ s, s < FFT_SIZE → (fft_out_index s = i ↔ s = spec_slot i)) ∧
    spec_slot i = (if i < FFT_SIZE / 2 then i + FFT_SIZE / 2 else i - FFT_SIZE / 2) ∧
    (∀ j, j < FFT_SIZE → spec_slot i = spec_slot j → i = j) ∧
    (∃ j, j < FFT_SIZE ∧ spec_slot j = i) ∧
    spec_slot 0 = 512 ∧ FFT_SIZE / 2 = 512 ∧
    thread_fft_post upd fft_out data 512 = upd (fft_out 0) (data 512) := by
  have hslot : spec_slot i < FFT_SIZE := by
    unfold spec_slot FFT_SIZE at *
    omega
  have hidx : fft_out_index (spec_slot i) = i :=
    (fft_out_index_eq_iff i (spec_slot i) hi hslot).mpr rfl
  refine ⟨hslot, ?_, ?_, ?_, ?_, ?_, ?_, ?_, ?_⟩
  · rw [thread_fft_post_apply upd fft_out data _ hslot, hidx]
  · intro s hs
    exact fft_out_index_eq_iff i s hi hs
  · unfold spec_slot FFT_SIZE at *
    split <;> omega
  · intro j hj h
    unfold spec_slot FFT_SIZE at *
    omega
  · refine ⟨spec_slot i, hslot, ?_⟩
    unfold spec_slot FFT_SIZE at *
    omega
  · decide
  · decide
  · rw [thread_fft_post_apply upd fft_out data 512 (by decide)]
    rfl

/-- Witness for C9: an impulse at transform output bin 0 with the identity update arrives in
slot 512. -/
theorem thread_fft_centering_witness :
    0 < FFT_SIZE ∧
    thread_fft_post (fun (pt : Nat) (_ : Nat) => pt) (fun b => if b = 0 then 1 else 0)
      (fun _ => 0) 512 = 1 :=
  ⟨by decide,
    (thread_fft_centering (fun (pt : Nat) (_ : Nat) => pt) (fun b => if b = 0 then 1 else 0)
      (fun _ => 0) 0 (by decide)).2.2.2.2.2.2.2.2⟩

/-! ## The crop loop of `fft_to_string` -/

theorem crop_first_eq : crop_first = 102 := by
  unfold crop_first FFT_SIZE
  have h : ⌊((1024 : Nat) : ℚ) * 0.1⌋ = 102 := by
    rw [Int.floor_eq_iff]
    norm_num
  rw [h]
  rfl

theorem crop_test_iff (j : Nat) : crop_test j = true ↔ j < 922 := by
  unfold crop_test FFT_SIZE
  rw [decide_eq_true_iff]
  constructor
  · intro h
    by_contra hj
    have h922 : (922 : ℚ) ≤ (j : ℚ) := by exact_mod_cast (by omega : 922 ≤ j)
    norm_num at h
    linarith
  · intro h
    have h921 : (j : ℚ) ≤ 921 := by exact_mod_cast (by omega : j ≤ 921)
    norm_num
    linarith

/-- With the constants read as IEEE doubles (`0.1` is `3602879701896397 / 2^55`, `0.9` is
`8106479329266893 / 2^53`, and the products with `1024 = 2^10` are exact) the loop has the same
first index and the same test. -/
theorem crop_bounds_double (j : Nat) :
    ⌊(1024 : ℚ) * (3602879701896397 / 36028797018963968)⌋ = 102 ∧
    ((j : ℚ) < (1024 : ℚ) * (8106479329266893 / 9007199254740992) ↔ j < 922) := by
  constructor
  · rw [Int.floor_eq_iff]
    norm_num
  · constructor
    · intro h
      by_contra hj
      have h922 : (922 : ℚ) ≤ (j : ℚ) := by exact_mod_cast (by omega : 922 ≤ j)
      norm_num at h
      linarith
    · intro h
      have h921 : (j : ℚ) ≤ 921 := by exact_mod_cast (by omega : j ≤ 921)
      norm_num
      linarith

theorem crop_loop_eq (scaled : Nat → Nat) (comp : Nat → Int) :
    ∀ (fuel j : Nat) (ptr : List Nat), 922 ≤ j + fuel →
      crop_loop scaled comp fuel j ptr =
        ptr ++ (List.range' j (922 - j)).map (crop_value scaled comp) := by
  intro fuel
  induction fuel with
  | zero =>
    intro j ptr h
    have h0 : 922 - j = 0 := by omega
    rw [crop_loop, h0]
    simp
  | succ fuel ih =>
    intro j ptr h
    rw [crop_loop]
    by_cases hj : j < 922
    · rw [if_pos ((crop_test_iff j).mpr hj), ih (j + 1) _ (by omega)]
      have hs : 922 - j = (922 - (j + 1)) + 1 := by omega
      rw [hs, List.range'_succ, List.map_cons, List.append_assoc]
      rfl
    · have ht : ¬ crop_test j = true := fun h => hj ((crop_test_iff j).mp h)
      have h0 : 922 - j = 0 := by omega
      rw [if_neg ht, h0]
      simp

theorem crop_eq (scaled : Nat → Nat) (comp : Nat → Int) :
    crop scaled comp = (List.range' 102 820).map (crop_value scaled comp) := by
  unfold crop
  rw [crop_first_eq, crop_loop_eq scaled comp FFT_SIZE 102 [] (by decide)]
  rfl

theorem crop_length (scaled : Nat → Nat) (comp : Nat → Int) :
    (crop scaled comp).length = 820 := by
  rw [crop_eq, List.length_map, List.length_range']

theorem crop_value_lt (scaled : Nat → Nat) (comp : Nat → Int) (j : Nat) :
    crop_value scaled comp j < 65536 := by
  unfold crop_value to_uint16
  omega

theorem fft_to_string_length (scaled : Nat → Nat) (comp : Nat → Int) (st : output_state) :
    (fft_to_string scaled comp st).websocket_output.length = 1640 := by
  show 2 * (crop scaled comp).length % 4294967296 = 1640
  rw [crop_length]

theorem fft_to_string_sequence_id (scaled : Nat → Nat) (comp : Nat → Int)
    (st : output_state) :
    (fft_to_string scaled comp st).websocket_output.sequence_id =
      (st.websocket_output.sequence_id + 1) % 4294967296 := rfl

/-- The 32-bit counter wraps: from `2^32 - 1` one more tick gives 0. -/
theorem fft_to_string_sequence_id_wraps (scaled : Nat → Nat) (comp : Nat → Int)
    (st : output_state) (h : st.websocket_output.sequence_id = 4294967295) :
    (fft_to_string scaled comp st).websocket_output.sequence_id = 0 := by
  rw [fft_to_string_sequence_id, h]

theorem run_ticks_sequence_id (scaled : Nat → Nat → Nat) (comp : Nat → Int) (n : Nat) :
    (run_ticks scaled comp n).websocket_output.sequence_id = n % 4294967296 := by
  induction n with
  | zero => rfl
  | succ n ih =>
    rw [run_ticks, fft_to_string_sequence_id, ih]
    omega

theorem run_ticks_length (scaled : Nat → Nat → Nat) (comp : Nat → Int) (n : Nat) :
    (run_ticks scaled comp (n + 1)).websocket_output.length = 1640 := by
  rw [run_ticks, fft_to_string_length]

theorem store_u16_length (vs : List Nat) : (store_u16 vs).length = 2 * vs.length := by
  induction vs with
  | nil => rfl
  | cons v vs ih =>
    rw [store_u16, List.length_append, ih, List.length_cons]
    show 2 + 2 * vs.length = 2 * (vs.length + 1)
    omega

theorem noise_floor_length (ptr : List Nat) (lowest_smooth : Nat) :
    (noise_floor ptr lowest_smooth).1.length = ptr.length := by
  show (add_offset _ ptr).length = ptr.length
  unfold add_offset
  rw [List.length_map]

theorem fft_to_string_payload_length (scaled : Nat → Nat) (comp : Nat → Int)
    (st : output_state) :
    ((fft_to_string scaled comp st).websocket_output.buffer.take 1640).length = 1640 := by
  show ((store_u16 (noise_floor (crop scaled comp) st.lowest_smooth).1 ++
    st.websocket_output.buffer.drop (2 * (crop scaled comp).length)).take 1640).length = 1640
  rw [List.length_take, List.length_append, store_u16_length, noise_floor_length, crop_length]
  omega

/-- C2: every call of `fft_to_string` leaves `websocket_output.sequence_id` equal to its
previous value plus 1 in `uint32_t` (plus exactly 1 whenever that fits in 32 bits), whatever
the spectrum contents; hence after `n < 2^32` ticks from the initial value 0 the sequence id
equals `n`, each tick adds exactly 1, and no value repeats. -/
theorem sequence_id_counts_ticks (scaled : Nat → Nat → Nat) (comp : Nat → Int) (n : Nat)
    (hn : n < 4294967296) :
    (run_ticks scaled comp n).websocket_output.sequence_id = n ∧
    (∀ k, k < n → (run_ticks scaled comp (k + 1)).websocket_output.sequence_id =
      (run_ticks scaled comp k).websocket_output.sequence_id + 1) ∧
    (∀ k, k < n → (run_ticks scaled comp k).websocket_output.sequence_id ≠
      (run_ticks scaled comp n).websocket_output.sequence_id) ∧
    (∀ (sc : Nat → Nat) (st : output_state),
      (fft_to_string sc comp st).websocket_output.sequence_id =
        (st.websocket_output.sequence_id + 1) % 4294967296) ∧
    (∀ (sc : Nat → Nat) (st : output_state),
      st.websocket_output.sequence_id + 1 < 4294967296 →
      (fft_to_string sc comp st).websocket_output.sequence_id =
        st.websocket_output.sequence_id + 1) := by
  refine ⟨?_, ?_, ?_, ?_, ?_⟩
  · rw [run_ticks_sequence_id]
    omega
  · intro k hk
    rw [run_ticks_sequence_id, run_ticks_sequence_id]
    omega
  · intro k hk
    rw [run_ticks_sequence_id, run_ticks_sequence_id]
    omega
  · intro sc st
    rfl
  · intro sc st h
    rw [fft_to_string_sequence_id]
    omega

/-- Witness for C2: 1000 ticks over an all-zero spectrum. -/
theorem sequence_id_counts_ticks_witness :
    1000 < 4294967296 ∧
    (run_ticks (fun _ _ => 0) (fun _ => 0) 1000).websocket_output.sequence_id = 1000 :=
  ⟨by decide, (sequence_id_counts_ticks (fun _ _ => 0) (fun _ => 0) 1000 (by decide)).1⟩

/-- C4 fails as stated: the crop loop stores 820 values, not 819, and the published length is
1640 bytes, not 1638. -/
theorem crop_count_counterexample :
    (crop (fun _ => 0) (fun _ => 0)).length = 820 ∧
    (crop (fun _ => 0) (fun _ => 0)).length ≠ 819 ∧
    (fft_to_string (fun _ => 0) (fun _ => 0) output_state_init).websocket_output.length
      = 1640 ∧
    (fft_to_string (fun _ => 0) (fun _ => 0) output_state_init).websocket_output.length
      ≠ 1638 := by
  rw [crop_length, fft_to_string_length]
  decide

/-- C4 as amended: with `FFT_SIZE = 1024`, every call of `fft_to_string` produces a frame of
exactly 820 unsigned 16-bit values: the crop loop starts at `j = 102` (`FFT_SIZE*0.1`
truncated), its test `j < FFT_SIZE*0.9` holds up to `j = 921` and fails at `j = 922`, so it
runs 820 times over the bins 102..921 (any iteration bound of 820 or more gives this result),
and `websocket_output.length` is set to 1640 bytes, the size of the stored values. -/
theorem crop_count (scaled : Nat → Nat) (comp : Nat → Int) (st : output_state) :
    crop_first = 102 ∧ crop_test 921 = true ∧ crop_test 922 = false ∧
    crop scaled comp = (List.range' 102 820).map (crop_value scaled comp) ∧
    (∀ fuel, 820 ≤ fuel → crop_loop scaled comp fuel crop_first [] = crop scaled comp) ∧
    (crop scaled comp).length = 820 ∧
    (fft_to_string scaled comp st).websocket_output.length = 1640 ∧
    ((fft_to_string scaled comp st).websocket_output.buffer.take
      (fft_to_string scaled comp st).websocket_output.length).length = 2 * 820 := by
  refine ⟨crop_first_eq, (crop_test_iff 921).mpr (by decide), ?_, crop_eq scaled comp, ?_,
    crop_length scaled comp, fft_to_string_length scaled comp st, ?_⟩
  · cases h : crop_test 922 with
    | false => rfl
    | true => exact absurd ((crop_test_iff 922).mp h) (by decide)
  · intro fuel hfuel
    rw [crop_eq, crop_first_eq, crop_loop_eq scaled comp fuel 102 [] (by omega)]
    rfl
  · rw [fft_to_string_length, fft_to_string_payload_length]

/-! ## The writable branch of `callback_fft` -/

theorem writeable_skip (lws_write : Nat → List Nat → Int) (wsi : Nat)
    (out : websocket_output_t)
    (us : websocket_user_session_t)
    (h : ¬ (out.length ≠ 0 ∧ us.last_sequence_id ≠ out.sequence_id)) :
    callback_fft_SERVER_WRITEABLE lws_write wsi out us =
      { user_session := us, sent := none, ret := 0 } := by
  unfold callback_fft_SERVER_WRITEABLE
  rw [if_neg h]

theorem writeable_send_zero (lws_write : Nat → List Nat → Int) (wsi : Nat)
    (out : websocket_output_t)
    (us : websocket_user_session_t)
    (h : out.length ≠ 0 ∧ us.last_sequence_id ≠ out.sequence_id)
    (hn : lws_write wsi (out.buffer.take out.length) = 0) :
    callback_fft_SERVER_WRITEABLE lws_write wsi out us =
      { user_session := us, sent := some (out.buffer.take out.length), ret := -1 } := by
  unfold callback_fft_SERVER_WRITEABLE
  rw [if_pos h]
  dsimp only
  rw [if_pos hn]

theorem writeable_send_nonzero (lws_write : Nat → List Nat → Int) (wsi : Nat)
    (out : websocket_output_t)
    (us : websocket_user_session_t)
    (h : out.length ≠ 0 ∧ us.last_sequence_id ≠ out.sequence_id)
    (hn : lws_write wsi (out.buffer.take out.length) ≠ 0) :
    callback_fft_SERVER_WRITEABLE lws_write wsi out us =
      { user_session := { us with last_sequence_id := out.sequence_id }
        sent := some (out.buffer.take out.length)
        ret := 0 } := by
  unfold callback_fft_SERVER_WRITEABLE
  rw [if_pos h]
  dsimp only
  rw [if_neg hn]

/-- C1: for every subscriber state and every published frame, the writable branch of
`callback_fft` calls `lws_write` if and only if `websocket_output.length != 0` and
`last_sequence_id != websocket_output.sequence_id`; the payload of the call is exactly the
first `websocket_output.length` bytes of the frame; after a successful send (a positive
result of `lws_write`) `last_sequence_id` equals `websocket_output.sequence_id`; when no send
is attempted `last_sequence_id` is unchanged and the handler returns 0. -/
theorem writeable_sends_iff_new (lws_write : Nat → List Nat → Int) (wsi : Nat)
    (out : websocket_output_t) (us : websocket_user_session_t) :
    ((callback_fft_SERVER_WRITEABLE lws_write wsi out us).sent ≠ none ↔
      (out.length ≠ 0 ∧ us.last_sequence_id ≠ out.sequence_id)) ∧
    (∀ payload, (callback_fft_SERVER_WRITEABLE lws_write wsi out us).sent = some payload →
      payload = out.buffer.take out.length) ∧
    ((callback_fft_SERVER_WRITEABLE lws_write wsi out us).sent ≠ none →
      0 < lws_write wsi (out.buffer.take out.length) →
      (callback_fft_SERVER_WRITEABLE lws_write wsi out us).user_session.last_sequence_id
        = out.sequence_id ∧
      (callback_fft_SERVER_WRITEABLE lws_write wsi out us).ret = 0) ∧
    ((callback_fft_SERVER_WRITEABLE lws_write wsi out us).sent = none →
      (callback_fft_SERVER_WRITEABLE lws_write wsi out us).user_session.last_sequence_id
        = us.last_sequence_id ∧
      (callback_fft_SERVER_WRITEABLE lws_write wsi out us).ret = 0) := by
  by_cases h : out.length ≠ 0 ∧ us.last_sequence_id ≠ out.sequence_id
  · by_cases hn : lws_write wsi (out.buffer.take out.length) = 0
    · rw [writeable_send_zero lws_write wsi out us h hn]
      refine ⟨⟨fun _ => h, fun _ => by simp⟩, ?_, ?_, ?_⟩
      · intro payload hp
        exact (Option.some.inj hp).symm
      · intro _ hpos
        omega
      · intro hnone
        cases hnone
    · rw [writeable_send_nonzero lws_write wsi out us h hn]
      refine ⟨⟨fun _ => h, fun _ => by simp⟩, ?_, ?_, ?_⟩
      · intro payload hp
        exact (Option.some.inj hp).symm
      · intro _ _
        exact ⟨rfl, rfl⟩
      · intro hnone
        cases hnone
  · rw [writeable_skip lws_write wsi out us h]
    refine ⟨⟨fun hs => absurd rfl hs, fun hc => absurd hc h⟩, ?_, ?_, ?_⟩
    · intro payload hp
      cases hp
    · intro hs
      exact absurd rfl hs
    · intro _
      exact ⟨rfl, rfl⟩

/-- Witness for C1: a four-byte frame with sequence id 1, a subscriber at 0, and an
`lws_write` that reports the number of bytes it was given. -/
theorem writeable_sends_iff_new_witness :
    (callback_fft_SERVER_WRITEABLE (fun _ payload => (payload.length : Int)) 1
      { buffer := [1, 2, 3, 4, 5, 6], length := 4, sequence_id := 1 }
      { wsi := 1, websocket_user_session_list := none, last_sequence_id := 0 }).sent ≠ none ∧
    (0 : Int) < (fun (_ : Nat) (payload : List Nat) => (payload.length : Int)) 1
      (([1, 2, 3, 4, 5, 6] : List Nat).take 4) ∧
    (callback_fft_SERVER_WRITEABLE (fun _ payload => (payload.length : Int)) 1
      { buffer := [1, 2, 3, 4, 5, 6], length := 4, sequence_id := 1 }
      { wsi := 1, websocket_user_session_list := none, last_sequence_id := 0
        }).user_session.last_sequence_id = 1 :=
  ⟨by decide, by decide,
    ((writeable_sends_iff_new (fun _ payload => (payload.length : Int)) 1
      { buffer := [1, 2, 3, 4, 5, 6], length := 4, sequence_id := 1 }
      { wsi := 1, websocket_user_session_list := none, last_sequence_id := 0 }).2.2.1
      (by decide) (by decide)).1⟩

/-- C3 fails on the code: with the frame of the first tick published, a subscriber at
sequence id 0 and `lws_write` reporting failure by returning -1, the writable branch returns 0
and advances `last_sequence_id` to the current sequence id 1. -/
theorem writeable_ignores_failed_write :
    (run_ticks (fun _ _ => 0) (fun _ => 0) 1).websocket_output.length = 1640 ∧
    (run_ticks (fun _ _ => 0) (fun _ => 0) 1).websocket_output.sequence_id = 1 ∧
    (callback_fft_SERVER_WRITEABLE (fun _ _ => -1) 1
      (run_ticks (fun _ _ => 0) (fun _ => 0) 1).websocket_output
      { wsi := 1, websocket_user_session_list := none, last_sequence_id := 0 }).sent ≠ none ∧
    (callback_fft_SERVER_WRITEABLE (fun _ _ => -1) 1
      (run_ticks (fun _ _ => 0) (fun _ => 0) 1).websocket_output
      { wsi := 1, websocket_user_session_list := none, last_sequence_id := 0 }).ret = 0 ∧
    (callback_fft_SERVER_WRITEABLE (fun _ _ => -1) 1
      (run_ticks (fun _ _ => 0) (fun _ => 0) 1).websocket_output
      { wsi := 1, websocket_user_session_list := none, last_sequence_id := 0
        }).user_session.last_sequence_id = 1 := by
  have hlen := run_ticks_length (fun _ _ => 0) (fun _ => 0) 0
  have hseq := run_ticks_sequence_id (fun _ _ => 0) (fun _ => 0) 1
  have hseq1 : (run_ticks (fun _ _ => 0) (fun _ => 0) 1).websocket_output.sequence_id = 1 :=
    hseq
  have h : (run_ticks (fun _ _ => 0) (fun _ => 0) 1).websocket_output.length ≠ 0 ∧
      (0 : Nat) ≠ (run_ticks (fun _ _ => 0) (fun _ => 0) 1).websocket_output.sequence_id := by
    rw [hlen, hseq1]
    decide
  rw [writeable_send_nonzero (fun _ _ => -1) 1 _
    { wsi := 1, websocket_user_session_list := none, last_sequence_id := 0 } h (by decide)]
  exact ⟨hlen, hseq1, by simp, rfl, hseq1⟩

/-- Only the result 0 of `lws_write` makes the writable branch return -1, and then
`last_sequence_id` is kept. -/
theorem writeable_closes_iff_zero (lws_write : Nat → List Nat → Int) (wsi : Nat)
    (out : websocket_output_t) (us : websocket_user_session_t) :
    (callback_fft_SERVER_WRITEABLE lws_write wsi out us).ret = -1 ↔
      ((out.length ≠ 0 ∧ us.last_sequence_id ≠ out.sequence_id) ∧
        lws_write wsi (out.buffer.take out.length) = 0) := by
  by_cases h : out.length ≠ 0 ∧ us.last_sequence_id ≠ out.sequence_id
  · by_cases hn : lws_write wsi (out.buffer.take out.length) = 0
    · rw [writeable_send_zero lws_write wsi out us h hn]
      exact ⟨fun _ => ⟨h, hn⟩, fun _ => rfl⟩
    · rw [writeable_send_nonzero lws_write wsi out us h hn]
      exact ⟨fun hc => absurd (show (0 : Int) = -1 from hc) (by decide),
        fun hc => absurd hc.2 hn⟩
  · rw [writeable_skip lws_write wsi out us h]
    exact ⟨fun hc => absurd (show (0 : Int) = -1 from hc) (by decide),
      fun hc => absurd hc.1 h⟩

/-! ## The connect branch of `callback_fft` -/

theorem active_list_update (sessions : Nat → websocket_user_session_t) (user : Nat)
    (x : websocket_user_session_t) :
    ∀ (fuel : Nat) (head : Option Nat), user ∉ active_list sessions fuel head →
      active_list (Function.update sessions user x) fuel head =
        active_list sessions fuel head := by
  intro fuel
  induction fuel with
  | zero =>
    intro head _
    cases head <;> rfl
  | succ fuel ih =>
    intro head h
    cases head with
    | none => rfl
    | some p =>
      rw [active_list] at h
      have hp : p ≠ user := fun hpu => h (by rw [hpu]; exact List.mem_cons_self _ _)
      have hrest : user ∉ active_list sessions fuel (sessions p).websocket_user_session_list :=
        fun hm => h (List.mem_cons_of_mem _ hm)
      rw [active_list, active_list, Function.update_noteq hp, ih _ hrest]

/-- C7 fails as stated: the connect branch never writes `last_sequence_id`.  A record that
holds 7 still holds 7 afterwards, which is not below the id 3 of the non-empty frame of tick
3; and a zero-filled record holds 0, which is not below the id of the non-empty frame of tick
`2^32`, where the 32-bit counter is 0 again. -/
theorem established_sentinel_counterexample :
    ((run_ticks (fun _ _ => 0) (fun _ => 0) 3).websocket_output.length ≠ 0 ∧
      ¬ (((callback_fft_ESTABLISHED 1 0 (server_state_filled 7)).1.sessions 0).last_sequence_id
        < (run_ticks (fun _ _ => 0) (fun _ => 0) 3).websocket_output.sequence_id)) ∧
    ((run_ticks (fun _ _ => 0) (fun _ => 0) 4294967296).websocket_output.length ≠ 0 ∧
      ¬ (((callback_fft_ESTABLISHED 1 0 (server_state_filled 0)).1.sessions 0).last_sequence_id
        < (run_ticks (fun _ _ => 0) (fun _ => 0) 4294967296).websocket_output.sequence_id)) := by
  have h7 : ((callback_fft_ESTABLISHED 1 0 (server_state_filled 7)).1.sessions 0).last_sequence_id
      = 7 := by
    simp [callback_fft_ESTABLISHED, lws_ll_fwd_insert, server_state_filled]
  have h0 : ((callback_fft_ESTABLISHED 1 0 (server_state_filled 0)).1.sessions 0).last_sequence_id
      = 0 := by
    simp [callback_fft_ESTABLISHED, lws_ll_fwd_insert, server_state_filled]
  rw [h7, h0, run_ticks_length _ _ 2, run_ticks_length _ _ 4294967295, run_ticks_sequence_id,
    run_ticks_sequence_id]
  decide

/-- C7 as amended: for every connect event the `LWS_CALLBACK_ESTABLISHED` branch stores `wsi`,
links the subscriber in front of the previous head of the vhost's list (so the list of live
sessions gains it at the head), returns 0, touches no other record, and leaves
`last_sequence_id` as it found it; when the record arrives zero-filled, that value 0 is
strictly lower than the sequence id of every frame published by ticks 1 to `2^32 - 1`, all of
which are non-empty. -/
theorem established_links_session (wsi user : Nat) (st : server_state) :
    ((callback_fft_ESTABLISHED wsi user st).1.sessions user).last_sequence_id
      = (st.sessions user).last_sequence_id ∧
    ((callback_fft_ESTABLISHED wsi user st).1.sessions user).wsi = wsi ∧
    (callback_fft_ESTABLISHED wsi user st).1.vhost_session.websocket_user_session_list
      = some user ∧
    ((callback_fft_ESTABLISHED wsi user st).1.sessions user).websocket_user_session_list
      = st.vhost_session.websocket_user_session_list ∧
    (callback_fft_ESTABLISHED wsi user st).2 = 0 ∧
    (∀ p, p ≠ user → (callback_fft_ESTABLISHED wsi user st).1.sessions p = st.sessions p) ∧
    (∀ fuel,
      user ∉ active_list st.sessions fuel st.vhost_session.websocket_user_session_list →
      active_list (callback_fft_ESTABLISHED wsi user st).1.sessions (fuel + 1)
        (callback_fft_ESTABLISHED wsi user st).1.vhost_session.websocket_user_session_list
        = user :: active_list st.sessions fuel
            st.vhost_session.websocket_user_session_list) ∧
    ((st.sessions user).last_sequence_id = 0 →
      ∀ (scaled : Nat → Nat → Nat) (comp : Nat → Int) (n : Nat), 0 < n → n < 4294967296 →
        (run_ticks scaled comp n).websocket_output.length ≠ 0 ∧
        ((callback_fft_ESTABLISHED wsi user st).1.sessions user).last_sequence_id
          < (run_ticks scaled comp n).websocket_output.sequence_id) := by
  have hsess : (callback_fft_ESTABLISHED wsi user st).1.sessions =
      Function.update st.sessions user
        { wsi := wsi
          websocket_user_session_list := st.vhost_session.websocket_user_session_list
          last_sequence_id := (st.sessions user).last_sequence_id } := by
    simp [callback_fft_ESTABLISHED, lws_ll_fwd_insert]
  have hhead : (callback_fft_ESTABLISHED wsi user st).1.vhost_session.websocket_user_session_list
      = some user := rfl
  have hlast : ((callback_fft_ESTABLISHED wsi user st).1.sessions user).last_sequence_id
      = (st.sessions user).last_sequence_id := by
    rw [hsess, Function.update_same]
  refine ⟨hlast, by rw [hsess, Function.update_same], hhead,
    by rw [hsess, Function.update_same], rfl, ?_, ?_, ?_⟩
  · intro p hp
    rw [hsess, Function.update_noteq hp]
  · intro fuel hfresh
    rw [hhead, hsess, active_list, Function.update_same]
    show user :: active_list (Function.update st.sessions user _) fuel
      st.vhost_session.websocket_user_session_list = _
    rw [active_list_update st.sessions user _ fuel _ hfresh]
  · intro hzero scaled comp n hpos hlt
    obtain ⟨k, rfl⟩ : ∃ k, n = k + 1 := ⟨n - 1, by omega⟩
    rw [hlast, hzero, run_ticks_length, run_ticks_sequence_id]
    constructor
    · decide
    · omega

/-- Witness for C7: a zero-filled record connecting to an empty server, against the frame of
tick 5. -/
theorem established_links_session_witness :
    ((server_state_filled 0).sessions 4).last_sequence_id = 0 ∧ 0 < 5 ∧ 5 < 4294967296 ∧
    (run_ticks (fun _ _ => 0) (fun _ => 0) 5).websocket_output.length ≠ 0 ∧
    ((callback_fft_ESTABLISHED 1 4 (server_state_filled 0)).1.sessions 4).last_sequence_id
      < (run_ticks (fun _ _ => 0) (fun _ => 0) 5).websocket_output.sequence_id ∧
    active_list (callback_fft_ESTABLISHED 1 4 (server_state_filled 0)).1.sessions 1
      (callback_fft_ESTABLISHED 1 4 (server_state_filled 0)).1.vhost_session.websocket_user_session_list
      = [4] :=
  ⟨rfl, by decide, by decide,
    ((established_links_session 1 4 (server_state_filled 0)).2.2.2.2.2.2.2 rfl
      (fun _ _ => 0) (fun _ => 0) 5 (by decide) (by decide)).1,
    ((established_links_session 1 4 (server_state_filled 0)).2.2.2.2.2.2.2 rfl
      (fun _ _ => 0) (fun _ => 0) 5 (by decide) (by decide)).2,
    (established_links_session 1 4 (server_state_filled 0)).2.2.2.2.2.2.1 0
      (by simp [active_list])⟩

/-! ## The noise-floor steps of `fft_to_string` -/

theorem lowest_fold (ptr : List Nat) :
    ∀ init : Nat,
      ptr.foldl (fun lowest v => if v < lowest then v else lowest) init ≤ init ∧
      (∀ v ∈ ptr, ptr.foldl (fun lowest v => if v < lowest then v else lowest) init ≤ v) ∧
      (ptr.foldl (fun lowest v => if v < lowest then v else lowest) init = init ∨
        ptr.foldl (fun lowest v => if v < lowest then v else lowest) init ∈ ptr) := by
  induction ptr with
  | nil =>
    intro init
    exact ⟨le_refl _, fun v hv => absurd hv (List.not_mem_nil v), Or.inl rfl⟩
  | cons a ptr ih =>
    intro init
    rw [List.foldl_cons]
    obtain ⟨h1, h2, h3⟩ := ih (if a < init then a else init)
    have hle : (if a < init then a else init) ≤ init := by split <;> omega
    have hla : (if a < init then a else init) ≤ a := by split <;> omega
    refine ⟨le_trans h1 hle, ?_, ?_⟩
    · intro v hv
      rcases List.mem_cons.mp hv with hva | hvp
      · rw [hva]
        exact le_trans h1 hla
      · exact h2 v hvp
    · rcases h3 with h3 | h3
      · by_cases ha : a < init
        · right
          rw [h3, if_pos ha]
          exact List.mem_cons_self _ _
        · left
          rw [h3, if_neg ha]
      · right
        exact List.mem_cons_of_mem _ h3

theorem find_lowest_eq (ptr : List Nat) (m : Nat) (hmin : is_minimum m ptr)
    (h16 : ∀ v ∈ ptr, v < 65536) : find_lowest ptr = m := by
  unfold find_lowest
  obtain ⟨_, h2, h3⟩ := lowest_fold ptr 0xFFFF
  have hm := h2 m hmin.1
  have hm16 := h16 m hmin.1
  rcases h3 with h3 | h3
  · omega
  · have := hmin.2 _ h3
    omega

theorem smooth_floor_fixed (m : Nat) (hm : m < 65536) : smooth_floor m m = m := by
  unfold smooth_floor FLOOR_TIME_SMOOTH
  have h : (m : ℚ) * (1 - 0.995) + (m : ℚ) * 0.995 = ((m : Nat) : ℚ) := by ring
  rw [h, Int.floor_natCast, Int.toNat_natCast]
  omega

/-- The exact update of `lowest_smooth` in integer arithmetic. -/
theorem smooth_floor_eq (lowest lowest_smooth : Nat) :
    smooth_floor lowest lowest_smooth = (5 * lowest + 995 * lowest_smooth) / 1000 % 65536 := by
  unfold smooth_floor FLOOR_TIME_SMOOTH
  have h : (lowest : ℚ) * (1 - 0.995) + (lowest_smooth : ℚ) * 0.995 =
      (((5 * lowest + 995 * lowest_smooth : Nat) : ℚ)) / ((1000 : Nat) : ℚ) := by
    push_cast
    ring
  rw [h, Rat.floor_natCast_div_natCast, ← Int.natCast_div, Int.toNat_natCast]

theorem noise_floor_fixed (ptr : List Nat) (m : Nat) (hmin : is_minimum m ptr)
    (h16 : ∀ v ∈ ptr, v < 65536) :
    noise_floor ptr m = (ptr.map (fun v => (v + floor_offset m) % 65536), m) := by
  unfold noise_floor
  dsimp only
  rw [find_lowest_eq ptr m hmin h16, smooth_floor_fixed m (h16 m hmin.1)]
  rfl

theorem leveled_value (v m : Nat) (hv : v < 65536) (hmv : m ≤ v) :
    (v + floor_offset m) % 65536 =
      if v + 9300 < m + 65536 then v - m + 9300 else v - m + 9300 - 65536 := by
  unfold floor_offset to_uint16 FLOOR_TARGET
  split <;> omega

/-- With `lowest_smooth` equal to the minimum `m` of the buffer, the leveled buffer has minimum
`FLOOR_TARGET` exactly when no value lies 56236 or more above `m`, that is when adding the
offset does not wrap any value around `2^16`. -/
theorem noise_floor_min_iff (ptr : List Nat) (m : Nat) (hmin : is_minimum m ptr)
    (h16 : ∀ v ∈ ptr, v < 65536) :
    is_minimum FLOOR_TARGET (noise_floor ptr m).1 ↔ ∀ v ∈ ptr, v + 9300 < m + 65536 := by
  rw [noise_floor_fixed ptr m hmin h16]
  unfold is_minimum FLOOR_TARGET
  constructor
  · rintro ⟨_, hall⟩ v hv
    by_contra hwrap
    have hmem : (v + floor_offset m) % 65536 ∈
        ptr.map (fun v => (v + floor_offset m) % 65536) :=
      List.mem_map.mpr ⟨v, hv, rfl⟩
    have h9300 := hall _ hmem
    rw [leveled_value v m (h16 v hv) (hmin.2 v hv), if_neg hwrap] at h9300
    have := h16 v hv
    omega
  · intro hspan
    constructor
    · refine List.mem_map.mpr ⟨m, hmin.1, ?_⟩
      rw [leveled_value m m (h16 m hmin.1) (le_refl m), if_pos (by omega)]
      omega
    · intro w hw
      obtain ⟨v, hv, rfl⟩ := List.mem_map.mp hw
      rw [leveled_value v m (h16 v hv) (hmin.2 v hv), if_pos (hspan v hv)]
      omega

theorem crop_value_spike (j : Nat) :
    crop_value spike_spectrum (fun _ => 0) j = if j = 500 then 65000 else 5000 := by
  unfold crop_value spike_spectrum to_uint16
  split <;> rfl

/-- C8 fails as stated: in the cropped buffer of a spectrum whose converted value is 60000 in
bin 500 and 0 elsewhere, every stored value is 5000 except 65000 for bin 500; with
`lowest_smooth = 5000`, the minimum, the offset is 4300 and the leveled buffer holds
`(65000 + 4300) mod 2^16 = 3764`, so its minimum is not 9300. -/
theorem noise_floor_counterexample :
    is_minimum 5000 (crop spike_spectrum (fun _ => 0)) ∧
    (∀ v ∈ crop spike_spectrum (fun _ => 0), v < 65536) ∧
    3764 ∈ (noise_floor (crop spike_spectrum (fun _ => 0)) 5000).1 ∧
    ¬ is_minimum FLOOR_TARGET (noise_floor (crop spike_spectrum (fun _ => 0)) 5000).1 := by
  have h16 : ∀ v ∈ crop spike_spectrum (fun _ => 0), v < 65536 := by
    intro v hv
    rw [crop_eq] at hv
    obtain ⟨j, _, rfl⟩ := List.mem_map.mp hv
    exact crop_value_lt _ _ j
  have hmin : is_minimum 5000 (crop spike_spectrum (fun _ => 0)) := by
    rw [crop_eq]
    constructor
    · refine List.mem_map.mpr ⟨102, ?_, ?_⟩
      · rw [List.mem_range']
        exact ⟨0, by decide, rfl⟩
      · rw [crop_value_spike, if_neg (by decide)]
    · intro v hv
      obtain ⟨j, _, rfl⟩ := List.mem_map.mp hv
      rw [crop_value_spike]
      split <;> omega
  have h65000 : 65000 ∈ crop spike_spectrum (fun _ => 0) := by
    rw [crop_eq]
    refine List.mem_map.mpr ⟨500, ?_, ?_⟩
    · rw [List.mem_range']
      exact ⟨398, by decide, rfl⟩
    · rw [crop_value_spike, if_pos rfl]
  refine ⟨hmin, h16, ?_, ?_⟩
  · rw [noise_floor_fixed _ 5000 hmin h16]
    exact List.mem_map.mpr ⟨65000, h65000, by decide⟩
  · rw [noise_floor_min_iff _ 5000 hmin h16]
    intro hall
    exact absurd (hall 65000 h65000) (by decide)

/-- C8 as amended: for every cropped buffer of unsigned 16-bit values whose minimum is `m`
(so the buffer is non-empty) and in which no value lies 56236 or more above `m`, if
`lowest_smooth` equals `m` before the tick, then after the noise-floor steps of `fft_to_string` (evaluated exactly,
truncated to `uint16_t`, offset added modulo `2^16`) `lowest_smooth` is still `m` and the
minimum of the leveled buffer equals `FLOOR_TARGET = 9300`. -/
theorem noise_floor_levels (ptr : List Nat) (m : Nat)
    (hmin : is_minimum m ptr) (h16 : ∀ v ∈ ptr, v < 65536)
    (hspan : ∀ v ∈ ptr, v + 9300 < m + 65536) :
    ptr ≠ [] ∧ is_minimum FLOOR_TARGET (noise_floor ptr m).1 ∧ (noise_floor ptr m).2 = m ∧
      (noise_floor ptr m).1.length = ptr.length ∧ FLOOR_TARGET = 9300 := by
  refine ⟨List.ne_nil_of_mem hmin.1, (noise_floor_min_iff ptr m hmin h16).mpr hspan, ?_,
    noise_floor_length ptr m, rfl⟩
  rw [noise_floor_fixed ptr m hmin h16]

/-- Witness for C8: the buffer 11118, 12000, 11500 with `lowest_smooth = 11118`. -/
theorem noise_floor_levels_witness :
    is_minimum 11118 [11118, 12000, 11500] ∧
    (∀ v ∈ [11118, 12000, 11500], v < 65536) ∧
    (∀ v ∈ [11118, 12000, 11500], v + 9300 < 11118 + 65536) ∧
    is_minimum FLOOR_TARGET (noise_floor [11118, 12000, 11500] 11118).1 :=
  ⟨by decide, by decide, by decide,
    (noise_floor_levels [11118, 12000, 11500] 11118 (by decide) (by decide)
      (by decide)).2.1⟩

end Eshail
